import Mathlib

/-!
Verification development for the shungjs/voices repository: a per-user
engagement tracker that derives a playback volume from message counters.

Two source variants are embedded:
- src/unnamed/part_000 (message-count variant, with a minVolume clamp),
  embedded at top level;
- src/server.js (TTS variant, settings field volumePerTTS, no minVolume),
  embedded in namespace Srv.

JavaScript numbers are modelled as rationals; JS Map over string keys is
modelled as an insertion-ordered association list.
-/

set_option autoImplicit false

/-- Settings of src/unnamed/part_000 (VOLUME_CONFIG shape). -/
structure Settings where
  startVolume : ℚ
  volumePerMessage : ℚ
  maxVolume : ℚ
  minVolume : ℚ
  deriving Repr, DecidableEq

/-- Default VOLUME_CONFIG of src/unnamed/part_000:
startVolume 0.10, volumePerMessage 0.02, maxVolume 0.90, minVolume 0.10. -/
def VOLUME_CONFIG : Settings :=
  { startVolume := 1/10, volumePerMessage := 1/50, maxVolume := 9/10, minVolume := 1/10 }

/-- Per-user record: messageCount and ttsCount (src/unnamed/part_000). -/
structure UserRecord where
  messageCount : ℕ
  ttsCount : ℕ
  deriving Repr, DecidableEq

/-- The zero-valued record used as the default for an absent user:
the JS expression (users.get(username) || \x7b messageCount: 0, ttsCount: 0 \x7d). -/
def zeroRecord : UserRecord := { messageCount := 0, ttsCount := 0 }

/-- calculateVolume of src/unnamed/part_000 (lines 29-33):
min(max(startVolume + messageCount * volumePerMessage, minVolume), maxVolume). -/
def calculateVolume (s : Settings) (messageCount : ℕ) : ℚ :=
  min (max (s.startVolume + messageCount * s.volumePerMessage) s.minVolume) s.maxVolume

/-- The registry: a JS Map from normalized username to record, modelled as an
insertion-ordered association list. -/
abbrev Registry := List (String × UserRecord)

/-- Map.get: first entry with the given key, none when absent. -/
def lookupUser : Registry → String → Option UserRecord
  | [], _ => none
  | (k, v) :: rest, key => if k = key then some v else lookupUser rest key

/-- Map.set: replace the value in place when the key is present (JS Map.set
keeps insertion order), append otherwise. -/
def setUser : Registry → String → UserRecord → Registry
  | [], key, v => [(key, v)]
  | (k, w) :: rest, key, v =>
      if k = key then (key, v) :: rest else (k, w) :: setUser rest key v

/-- The mutable process state: users map plus settings (streamData). -/
structure StreamData where
  users : Registry
  settings : Settings
  deriving Repr, DecidableEq

/-- User-identifier normalization as the source performs it:
req.params.username.toLowerCase() — lowercasing only, no trimming.
Lowercasing is modelled character-by-character (String.toLower maps
Char.toLower over the characters). -/
def normalizeUser (username : String) : String := ⟨username.data.map Char.toLower⟩

/-- messagesUntilMax as computed in the handlers:
Math.max(0, Math.ceil((maxVolume - volume) / volumePerMessage)). -/
def messagesUntilMax (s : Settings) (volume : ℚ) : ℤ :=
  max 0 ⌈(s.maxVolume - volume) / s.volumePerMessage⌉

/-- JSON body of GET /api/user/:username/volume and POST /api/user/:username/message. -/
structure VolumeResponse where
  username : String
  volume : ℚ
  messageCount : ℕ
  messagesUntilMax : ℤ
  atMaxVolume : Bool
  deriving Repr, DecidableEq

/-- GET /api/user/:username/volume (src/unnamed/part_000 lines 47-60):
reads the record (absent defaults to zero), computes volume and
messagesUntilMax, performs no mutation. -/
def getUserVolume (st : StreamData) (raw : String) : VolumeResponse × StreamData :=
  let username := normalizeUser raw
  let user := (lookupUser st.users username).getD zeroRecord
  let volume := calculateVolume st.settings user.messageCount
  ({ username := username
     volume := volume
     messageCount := user.messageCount
     messagesUntilMax := messagesUntilMax st.settings volume
     atMaxVolume := decide (st.settings.maxVolume ≤ volume) }, st)

/-- POST /api/user/:username/message (src/unnamed/part_000 lines 63-81):
get-or-create the record, increment messageCount, store it back, and
report the post-increment volume. -/
def postMessage (st : StreamData) (raw : String) : VolumeResponse × StreamData :=
  let username := normalizeUser raw
  let user0 := (lookupUser st.users username).getD zeroRecord
  let user := { user0 with messageCount := user0.messageCount + 1 }
  let users := setUser st.users username user
  let volume := calculateVolume st.settings user.messageCount
  ({ username := username
     volume := volume
     messageCount := user.messageCount
     messagesUntilMax := messagesUntilMax st.settings volume
     atMaxVolume := decide (st.settings.maxVolume ≤ volume) },
   { st with users := users })

/-- Data reported by the plain-text GET /api/tts/:username response. -/
structure TTSResponse where
  username : String
  volume : ℚ
  volumePercent : ℤ
  messageCount : ℕ
  deriving Repr, DecidableEq

/-- GET /api/tts/:username (src/unnamed/part_000 lines 84-97): computes the
volume from messageCount, then records a TTS usage (ttsCount += 1). -/
def getTTS (st : StreamData) (raw : String) : TTSResponse × StreamData :=
  let username := normalizeUser raw
  let user0 := (lookupUser st.users username).getD zeroRecord
  let volume := calculateVolume st.settings user0.messageCount
  let user := { user0 with ttsCount := user0.ttsCount + 1 }
  let users := setUser st.users username user
  ({ username := username
     volume := volume
     volumePercent := round (volume * 100)
     messageCount := user0.messageCount },
   { st with users := users })

/-- JSON body of GET /api/tts/:username/json. -/
structure TTSJsonResponse where
  username : String
  volume : ℚ
  volumePercent : ℤ
  messageCount : ℕ
  ttsCount : ℕ
  deriving Repr, DecidableEq

/-- GET /api/tts/:username/json (src/unnamed/part_000 lines 100-116):
same behavior as the plain-text endpoint, JSON response with ttsCount. -/
def getTTSJson (st : StreamData) (raw : String) : TTSJsonResponse × StreamData :=
  let username := normalizeUser raw
  let user0 := (lookupUser st.users username).getD zeroRecord
  let volume := calculateVolume st.settings user0.messageCount
  let user := { user0 with ttsCount := user0.ttsCount + 1 }
  let users := setUser st.users username user
  ({ username := username
     volume := volume
     volumePercent := round (volume * 100)
     messageCount := user0.messageCount
     ttsCount := user.ttsCount },
   { st with users := users })

/-- Partial settings payload of PUT /api/settings: each field optional. -/
structure PartialSettings where
  startVolume : Option ℚ
  volumePerMessage : Option ℚ
  maxVolume : Option ℚ
  minVolume : Option ℚ
  deriving Repr, DecidableEq

/-- Math.max(0, Math.min(1, v)): clamp to the unit interval. -/
def clamp01 (v : ℚ) : ℚ := max 0 (min 1 v)

/-- PUT /api/settings update logic (src/unnamed/part_000 lines 142-151):
each provided field is clamped ([0,1] for the three volume fields,
max(0, v) for volumePerMessage) and assigned; omitted fields unchanged. -/
def updateSettings (s : Settings) (p : PartialSettings) : Settings :=
  let s1 := match p.startVolume with
    | none => s
    | some v => { s with startVolume := clamp01 v }
  let s2 := match p.maxVolume with
    | none => s1
    | some v => { s1 with maxVolume := clamp01 v }
  let s3 := match p.minVolume with
    | none => s2
    | some v => { s2 with minVolume := clamp01 v }
  match p.volumePerMessage with
    | none => s3
    | some v => { s3 with volumePerMessage := max 0 v }

/-- Response of PUT /api/settings: a message and the resulting settings. -/
structure SettingsResponse where
  settings : Settings
  deriving Repr, DecidableEq

/-- PUT /api/settings handler: updates the stored settings and returns them. -/
def putSettings (st : StreamData) (p : PartialSettings) : SettingsResponse × StreamData :=
  let s := updateSettings st.settings p
  ({ settings := s }, { st with settings := s })

/-- POST /api/reset (src/unnamed/part_000 lines 154-157): users.clear(). -/
def resetData (st : StreamData) : StreamData := { st with users := [] }

/-- The message/tts counters of a user as observed through the registry:
an absent record reads as (0, 0). -/
def counts (st : StreamData) (key : String) : ℕ × ℕ :=
  match lookupUser st.users key with
  | none => (0, 0)
  | some r => (r.messageCount, r.ttsCount)

/-! ### The src/server.js variant (TTS-based settings, no minVolume) -/

namespace Srv

/-- Settings of src/server.js: startVolume, volumePerTTS, maxVolume. -/
structure Settings where
  startVolume : ℚ
  volumePerTTS : ℚ
  maxVolume : ℚ
  deriving Repr, DecidableEq

/-- Default VOLUME_CONFIG of src/server.js. -/
def VOLUME_CONFIG : Settings :=
  { startVolume := 1/10, volumePerTTS := 1/50, maxVolume := 9/10 }

/-- Per-user record of src/server.js; lastTTSMessage and lastTTSTime are
stamped by the POST tts handler. -/
structure UserRecord where
  messageCount : ℕ
  ttsCount : ℕ
  lastTTSMessage : Option String
  lastTTSTime : Option String
  deriving Repr, DecidableEq

/-- Absent-user default of src/server.js (lastTTS fields unset). -/
def zeroRecord : UserRecord :=
  { messageCount := 0, ttsCount := 0, lastTTSMessage := none, lastTTSTime := none }

/-- calculateVolume of src/server.js (lines 28-32): the parameter is named
ttsCount in the source, and min(startVolume + ttsCount * volumePerTTS,
maxVolume) is returned; there is no lower clamp in this variant. -/
def calculateVolume (s : Settings) (ttsCount : ℕ) : ℚ :=
  min (s.startVolume + ttsCount * s.volumePerTTS) s.maxVolume

/-- State of src/server.js. -/
structure StreamData where
  users : List (String × UserRecord)
  settings : Settings
  deriving Repr, DecidableEq

/-- Map.get for the server.js registry. -/
def lookupUser : List (String × UserRecord) → String → Option UserRecord
  | [], _ => none
  | (k, v) :: rest, key => if k = key then some v else lookupUser rest key

/-- Map.set for the server.js registry. -/
def setUser : List (String × UserRecord) → String → UserRecord → List (String × UserRecord)
  | [], key, v => [(key, v)]
  | (k, w) :: rest, key, v =>
      if k = key then (key, v) :: rest else (k, w) :: setUser rest key v

/-- JSON body of POST /api/user/:username/tts in src/server.js. -/
structure TTSPostResponse where
  username : String
  volume : ℚ
  volumePercent : ℤ
  ttsCount : ℕ
  messageCount : ℕ
  message : String
  deriving Repr, DecidableEq

/-- POST /api/user/:username/tts (src/server.js lines 83-104): increments
ttsCount, stamps lastTTSMessage/lastTTSTime, and reports the volume computed
from the record's messageCount. The request body's optional message and the
current timestamp are inputs. -/
def postTTS (st : StreamData) (raw : String) (message : Option String) (now : String) :
    TTSPostResponse × StreamData :=
  let username := raw.toLower
  let user0 := (lookupUser st.users username).getD zeroRecord
  let user := { user0 with
    ttsCount := user0.ttsCount + 1
    lastTTSMessage := some (message.getD "")
    lastTTSTime := some now }
  let users := setUser st.users username user
  let volume := calculateVolume st.settings user.messageCount
  ({ username := username
     volume := volume
     volumePercent := round (volume * 100)
     ttsCount := user.ttsCount
     messageCount := user.messageCount
     message := message.getD "" },
   { st with users := users })

/-- JSON body of GET /api/tts/:username in src/server.js. -/
structure TTSGetResponse where
  username : String
  volume : ℚ
  volumePercent : ℤ
  messageCount : ℕ
  ttsCount : ℕ
  deriving Repr, DecidableEq

/-- GET /api/tts/:username (src/server.js lines 107-123): computes the volume
from messageCount, then also records the query as a TTS usage. -/
def getTTS (st : StreamData) (raw : String) : TTSGetResponse × StreamData :=
  let username := raw.toLower
  let user0 := (lookupUser st.users username).getD zeroRecord
  let volume := calculateVolume st.settings user0.messageCount
  let user := { user0 with ttsCount := user0.ttsCount + 1 }
  let users := setUser st.users username user
  ({ username := username
     volume := volume
     volumePercent := round (volume * 100)
     messageCount := user0.messageCount
     ttsCount := user.ttsCount },
   { st with users := users })

/-- The message/tts counters as observed through the server.js registry. -/
def counts (st : StreamData) (key : String) : ℕ × ℕ :=
  match lookupUser st.users key with
  | none => (0, 0)
  | some r => (r.messageCount, r.ttsCount)


/-- JS division over Option ℚ, where none stands for the non-numeric
values undefined and NaN, which propagate through arithmetic. In the code
path embedded below the divisor is always the undefined volumePerMessage
read, so the infinite results of JS division never arise. -/
def jsDiv (a b : Option ℚ) : Option ℚ :=
  match a, b with
  | some x, some y => some (x / y)
  | _, _ => none

/-- Math.ceil over Option ℚ: NaN propagates. -/
def jsCeil (a : Option ℚ) : Option ℤ :=
  a.map fun q => ⌈q⌉

/-- Math.max(z, ·) over Option ℤ: Math.max with a NaN argument is NaN. -/
def jsMax (z : ℤ) (a : Option ℤ) : Option ℤ :=
  a.map fun x => max z x

/-- Reading streamData.settings.volumePerMessage in src/server.js line 50:
this variant's settings object carries only startVolume, volumePerTTS and
maxVolume (initially and after any PUT /api/settings), so the property
access yields undefined. -/
def volumePerMessageRead (_s : Settings) : Option ℚ := none

/-- JSON body of GET /api/user/:username/volume in src/server.js. -/
structure UserVolumeResponse where
  username : String
  volume : ℚ
  messageCount : ℕ
  messagesUntilMax : Option ℤ
  atMaxVolume : Bool
  deriving Repr, DecidableEq

/-- GET /api/user/:username/volume (src/server.js lines 46-59): reads the
record (absent defaults to zero), computes the volume from messageCount,
computes messagesUntilMax = Math.max(0, Math.ceil((maxVolume - volume) /
settings.volumePerMessage)) — NaN here, the field being undefined in this
variant — and performs no mutation. -/
def getUserVolume (st : StreamData) (raw : String) : UserVolumeResponse × StreamData :=
  let username := raw.toLower
  let user := (lookupUser st.users username).getD zeroRecord
  let volume := calculateVolume st.settings user.messageCount
  ({ username := username
     volume := volume
     messageCount := user.messageCount
     messagesUntilMax :=
       jsMax 0 (jsCeil (jsDiv (some (st.settings.maxVolume - volume))
         (volumePerMessageRead st.settings)))
     atMaxVolume := decide (st.settings.maxVolume ≤ volume) }, st)

end Srv

/-! ### The operations of src/unnamed/part_000 as a step function -/

/-- The HTTP operations of src/unnamed/part_000. GET /health,
GET /api/leaderboard, GET /api/settings and GET /api/stats only read
streamData (their handlers never call users.set or users.clear), so their
state transitions are the identity. -/
inductive Op where
  | health
  | userVolume (u : String)
  | message (u : String)
  | tts (u : String)
  | ttsJson (u : String)
  | leaderboard
  | readSettings
  | writeSettings (p : PartialSettings)
  | reset
  | stats
  deriving DecidableEq

/-- The state transition of each operation of src/unnamed/part_000. -/
def stepOp : Op → StreamData → StreamData
  | .health, st => st
  | .userVolume u, st => (getUserVolume st u).2
  | .message u, st => (postMessage st u).2
  | .tts u, st => (getTTS st u).2
  | .ttsJson u, st => (getTTSJson st u).2
  | .leaderboard, st => st
  | .readSettings, st => st
  | .writeSettings p, st => (putSettings st p).2
  | .reset, st => resetData st
  | .stats, st => st

/-- k successive calls of POST /api/user/:username/message with the same
raw identifier. -/
def postMessageIter (st : StreamData) (raw : String) : ℕ → StreamData
  | 0 => st
  | k+1 => (postMessage (postMessageIter st raw k) raw).2

/-- Settings reachable from the defaults by a PUT update setting
startVolume to 0: the minVolume clamp is then active at low counters. -/
def lowStartSettings : Settings :=
  updateSettings VOLUME_CONFIG
    { startVolume := some 0, volumePerMessage := none, maxVolume := none, minVolume := none }

/-- Inserting an explicit zero-valued record for a key. -/
def insertZero (key : String) (st : StreamData) : StreamData :=
  { st with users := setUser st.users key zeroRecord }

/-! ### Registry lemmas -/

theorem lookupUser_setUser (r : Registry) (k u : String) (v : UserRecord) :
    lookupUser (setUser r k v) u = if k = u then some v else lookupUser r u := by
  induction r with
  | nil => simp [setUser, lookupUser]
  | cons hd tl ih =>
      obtain ⟨k0, v0⟩ := hd
      by_cases h : k0 = k
      · subst h
        simp only [setUser, if_pos rfl, lookupUser]
        split_ifs <;> simp_all [lookupUser]
      · simp only [setUser, if_neg h, lookupUser]
        split_ifs <;> simp_all [lookupUser]

/-! ### Claim C1 -/

/-- C1: with continuous-formula settings startVolume=0.10,
incrementPerEvent=0.02, maxVolume=0.90 (the default VOLUME_CONFIG of both
source variants), the pure volume computation satisfies compute(0)=0.10,
compute(10)=0.30, compute(40)=0.90 and compute(1000)=0.90 (clamped). -/
theorem c1_compute_examples :
    calculateVolume VOLUME_CONFIG 0 = 1/10 ∧
    calculateVolume VOLUME_CONFIG 10 = 3/10 ∧
    calculateVolume VOLUME_CONFIG 40 = 9/10 ∧
    calculateVolume VOLUME_CONFIG 1000 = 9/10 ∧
    Srv.calculateVolume Srv.VOLUME_CONFIG 0 = 1/10 ∧
    Srv.calculateVolume Srv.VOLUME_CONFIG 10 = 3/10 ∧
    Srv.calculateVolume Srv.VOLUME_CONFIG 40 = 9/10 ∧
    Srv.calculateVolume Srv.VOLUME_CONFIG 1000 = 9/10 := by
  norm_num [calculateVolume, VOLUME_CONFIG, Srv.calculateVolume, Srv.VOLUME_CONFIG]

/-! ### Claim C2 -/

/-- C2: for every settings state whose minVolume does not exceed maxVolume
(the default VOLUME_CONFIG satisfies this) and every non-negative counter,
the computed volume is at most maxVolume and at least minVolume. -/
theorem c2_volume_bounds (s : Settings) (h : s.minVolume ≤ s.maxVolume) (c : ℕ) :
    s.minVolume ≤ calculateVolume s c ∧ calculateVolume s c ≤ s.maxVolume :=
  ⟨le_min (le_max_right _ _) h, min_le_right _ _⟩

/-- Witness for C2 at the default settings and counter 7. -/
theorem c2_volume_bounds_witness :
    VOLUME_CONFIG.minVolume ≤ calculateVolume VOLUME_CONFIG 7 ∧
    calculateVolume VOLUME_CONFIG 7 ≤ VOLUME_CONFIG.maxVolume :=
  c2_volume_bounds VOLUME_CONFIG (by norm_num [VOLUME_CONFIG]) 7

/-! ### Claim C3 -/

/-- C3: for fixed settings with a non-negative per-message increment (every
reachable settings state has one: updates clamp it at 0 and the default is
positive), the volume computation is monotonically non-decreasing in the
counter. -/
theorem c3_monotone (s : Settings) (h : 0 ≤ s.volumePerMessage)
    (c1 c2 : ℕ) (hc : c1 ≤ c2) :
    calculateVolume s c1 ≤ calculateVolume s c2 := by
  unfold calculateVolume
  have hlin : s.startVolume + (c1 : ℚ) * s.volumePerMessage ≤
      s.startVolume + (c2 : ℚ) * s.volumePerMessage :=
    add_le_add_left (mul_le_mul_of_nonneg_right (by exact_mod_cast hc) h) _
  exact min_le_min (max_le_max hlin le_rfl) le_rfl

/-- Witness for C3 at the default settings with counters 3 ≤ 5. -/
theorem c3_monotone_witness :
    calculateVolume VOLUME_CONFIG 3 ≤ calculateVolume VOLUME_CONFIG 5 :=
  c3_monotone VOLUME_CONFIG (by norm_num [VOLUME_CONFIG]) 3 5 (by norm_num)

/-! ### Claim C5 -/

/-- C5: the settings update clamps each provided field to its valid range
([0,1] for the three volume fields, ≥ 0 for volumePerMessage) without
raising an error, leaves omitted fields unchanged, and the PUT handler
returns and stores the full resulting settings; in particular an update
with maxVolume = 5 stores 1 and an update with volumePerMessage = -1
stores 0. -/
theorem c5_update_clamps (st : StreamData) (p : PartialSettings) :
    ((updateSettings st.settings p).startVolume
        = p.startVolume.elim st.settings.startVolume clamp01) ∧
    ((updateSettings st.settings p).maxVolume
        = p.maxVolume.elim st.settings.maxVolume clamp01) ∧
    ((updateSettings st.settings p).minVolume
        = p.minVolume.elim st.settings.minVolume clamp01) ∧
    ((updateSettings st.settings p).volumePerMessage
        = p.volumePerMessage.elim st.settings.volumePerMessage (fun v => max 0 v)) ∧
    (putSettings st p).1.settings = updateSettings st.settings p ∧
    (putSettings st p).2.settings = updateSettings st.settings p ∧
    (updateSettings st.settings
      { startVolume := none, volumePerMessage := none,
        maxVolume := some 5, minVolume := none }).maxVolume = 1 ∧
    (updateSettings st.settings
      { startVolume := none, volumePerMessage := some (-1),
        maxVolume := none, minVolume := none }).volumePerMessage = 0 := by
  obtain ⟨a, b, c, d⟩ := p
  refine ⟨?_, ?_, ?_, ?_, rfl, rfl, ?_, ?_⟩
  · cases a <;> cases b <;> cases c <;> cases d <;> rfl
  · cases a <;> cases b <;> cases c <;> cases d <;> rfl
  · cases a <;> cases b <;> cases c <;> cases d <;> rfl
  · cases a <;> cases b <;> cases c <;> cases d <;> rfl
  · norm_num [updateSettings, clamp01]
  · norm_num [updateSettings, clamp01]

/-! ### Claim C8 -/

/-- C8: the per-user volume query GET /api/user/:username/volume performs no
mutation: for every state and identifier (including a never-seen one) the
resulting state — registry and settings — is exactly the state before, so
no record is inserted. -/
theorem c8_get_volume_pure (st : StreamData) (raw : String) :
    (getUserVolume st raw).2 = st := rfl

/-! ### Claim C4 -/

/-- After k POST message calls on a user that was absent initially, the
settings are untouched and the record holds messageCount = k (still absent
when k = 0). -/
theorem postMessageIter_fresh (st : StreamData) (raw : String)
    (h : lookupUser st.users (normalizeUser raw) = none) (k : ℕ) :
    (postMessageIter st raw k).settings = st.settings ∧
    lookupUser (postMessageIter st raw k).users (normalizeUser raw) =
      (if k = 0 then none else some { messageCount := k, ttsCount := 0 }) := by
  induction k with
  | zero => exact ⟨rfl, by simpa using h⟩
  | succ n ih =>
      obtain ⟨hs, hl⟩ := ih
      refine ⟨by simpa [postMessageIter, postMessage] using hs, ?_⟩
      by_cases hn : n = 0
      · subst hn
        simp [postMessageIter, postMessage, lookupUser_setUser, h, zeroRecord]
      · simp [postMessageIter, postMessage, lookupUser_setUser, hl, hn, zeroRecord]

/-- C4: calling the message-increment operation k ≥ 1 times on a fresh
(previously unseen) user yields a record with messageCount = k, and the
k-th call reports messageCount k and the post-increment volume
compute(k, settings). -/
theorem c4_increment_k_times (st : StreamData) (raw : String)
    (h : lookupUser st.users (normalizeUser raw) = none) (k : ℕ) (hk : 0 < k) :
    lookupUser (postMessageIter st raw k).users (normalizeUser raw) =
      some { messageCount := k, ttsCount := 0 } ∧
    (postMessage (postMessageIter st raw (k-1)) raw).1.messageCount = k ∧
    (postMessage (postMessageIter st raw (k-1)) raw).1.volume =
      calculateVolume st.settings k := by
  obtain ⟨m, rfl⟩ : ∃ m, k = m + 1 := ⟨k - 1, (Nat.succ_pred_eq_of_pos hk).symm⟩
  obtain ⟨hs, hl⟩ := postMessageIter_fresh st raw h m
  obtain ⟨hs1, hl1⟩ := postMessageIter_fresh st raw h (m+1)
  refine ⟨by simpa using hl1, ?_, ?_⟩
  · by_cases hm : m = 0
    · subst hm; simp [postMessage, hl, zeroRecord]
    · simp [postMessage, hl, hm, zeroRecord]
  · by_cases hm : m = 0
    · subst hm; simp [postMessage, hl, zeroRecord, hs]
    · simp [postMessage, hl, hm, zeroRecord, hs]

/-- Witness for C4: three message posts for fresh user Bob on the initial
state give messageCount 3 and volume compute(3). -/
theorem c4_increment_k_times_witness :
    lookupUser (postMessageIter ⟨[], VOLUME_CONFIG⟩ "Bob" 3).users (normalizeUser "Bob") =
      some { messageCount := 3, ttsCount := 0 } ∧
    (postMessage (postMessageIter ⟨[], VOLUME_CONFIG⟩ "Bob" (3-1)) "Bob").1.messageCount = 3 ∧
    (postMessage (postMessageIter ⟨[], VOLUME_CONFIG⟩ "Bob" (3-1)) "Bob").1.volume =
      calculateVolume VOLUME_CONFIG 3 :=
  c4_increment_k_times ⟨[], VOLUME_CONFIG⟩ "Bob" rfl 3 (by norm_num)

/-! ### Claim C6 -/

/-- C6 counterexample: the source normalization does not trim. The raw
identifier with a trailing blank is not normalized to the trimmed form,
and a message recorded under it is invisible when the trimmed identifier
is queried. -/
theorem c6_counterexample :
    normalizeUser "bob " ≠ "bob" ∧
    (getUserVolume ((postMessage ⟨[], VOLUME_CONFIG⟩ "bob ").2) "bob").1.messageCount = 0 ∧
    (getUserVolume ((postMessage ⟨[], VOLUME_CONFIG⟩ "bob ").2) "bob ").1.messageCount = 1 := by
  refine ⟨by decide, rfl, rfl⟩

/-- C6 amended: normalization lowercases the incoming identifier but does
not trim it; the lowercased string is the sole registry key, so two
identifiers with the same lowercasing resolve to the same user record and
produce identical behavior on every per-user endpoint, while identifiers
differing in surrounding whitespace are distinct keys. -/
theorem c6_lowercase_only (st : StreamData) (r1 r2 : String)
    (h : normalizeUser r1 = normalizeUser r2) :
    getUserVolume st r1 = getUserVolume st r2 ∧
    postMessage st r1 = postMessage st r2 ∧
    getTTS st r1 = getTTS st r2 ∧
    getTTSJson st r1 = getTTSJson st r2 := by
  simp [getUserVolume, postMessage, getTTS, getTTSJson, h]

/-- Witness for C6 amended: BoB and bob are the same user. -/
theorem c6_lowercase_only_witness :
    getUserVolume ⟨[], VOLUME_CONFIG⟩ "BoB" = getUserVolume ⟨[], VOLUME_CONFIG⟩ "bob" ∧
    postMessage ⟨[], VOLUME_CONFIG⟩ "BoB" = postMessage ⟨[], VOLUME_CONFIG⟩ "bob" ∧
    getTTS ⟨[], VOLUME_CONFIG⟩ "BoB" = getTTS ⟨[], VOLUME_CONFIG⟩ "bob" ∧
    getTTSJson ⟨[], VOLUME_CONFIG⟩ "BoB" = getTTSJson ⟨[], VOLUME_CONFIG⟩ "bob" :=
  c6_lowercase_only ⟨[], VOLUME_CONFIG⟩ "BoB" "bob" (by decide)

/-! ### Claim C7 -/

/-- When minVolume ≤ startVolume, the lower clamp never binds and the
volume is min(startVolume + c·inc, maxVolume). -/
theorem calculateVolume_eq_min (s : Settings) (hs : s.minVolume ≤ s.startVolume) (n : ℕ)
    (hinc : 0 ≤ s.volumePerMessage) :
    calculateVolume s n = min (s.startVolume + (n : ℚ) * s.volumePerMessage) s.maxVolume := by
  unfold calculateVolume
  rw [max_eq_left]
  have : (0:ℚ) ≤ (n : ℚ) * s.volumePerMessage := mul_nonneg (Nat.cast_nonneg n) hinc
  linarith

/-- For settings with minVolume ≤ startVolume and a positive increment,
messagesUntilMax at counter c is exactly the least number of further
events after which the volume reaches maxVolume. -/
theorem messagesUntilMax_least (s : Settings) (c : ℕ)
    (h1 : s.minVolume ≤ s.startVolume) (h2 : 0 < s.volumePerMessage) :
    s.maxVolume ≤ calculateVolume s (c + (messagesUntilMax s (calculateVolume s c)).toNat) ∧
    ∀ j < (messagesUntilMax s (calculateVolume s c)).toNat,
      calculateVolume s (c + j) < s.maxVolume := by
  have hcalc : ∀ n : ℕ, calculateVolume s n =
      min (s.startVolume + (n : ℚ) * s.volumePerMessage) s.maxVolume :=
    fun n => calculateVolume_eq_min s h1 n h2.le
  by_cases hc : s.maxVolume ≤ s.startVolume + (c : ℚ) * s.volumePerMessage
  · have hvol : calculateVolume s c = s.maxVolume := by
      rw [hcalc]; exact min_eq_right hc
    have hrem : messagesUntilMax s (calculateVolume s c) = 0 := by
      rw [hvol]; unfold messagesUntilMax; simp
    rw [hrem]
    refine ⟨?_, ?_⟩
    · simp [hvol]
    · intro j hj; simp at hj
  · push_neg at hc
    have hvol : calculateVolume s c = s.startVolume + (c : ℚ) * s.volumePerMessage := by
      rw [hcalc]; exact min_eq_left hc.le
    have hqpos : 0 < (s.maxVolume - (s.startVolume + (c : ℚ) * s.volumePerMessage))
        / s.volumePerMessage := div_pos (by linarith) h2
    have hceil : (0:ℤ) ≤ ⌈(s.maxVolume - (s.startVolume + (c : ℚ) * s.volumePerMessage))
        / s.volumePerMessage⌉ := Int.ceil_nonneg hqpos.le
    have hrem : messagesUntilMax s (calculateVolume s c) =
        ⌈(s.maxVolume - (s.startVolume + (c : ℚ) * s.volumePerMessage))
          / s.volumePerMessage⌉ := by
      rw [hvol]; unfold messagesUntilMax; rw [max_eq_right hceil]
    rw [hrem]
    set q := (s.maxVolume - (s.startVolume + (c : ℚ) * s.volumePerMessage))
        / s.volumePerMessage with hq
    have htn : ((⌈q⌉.toNat : ℤ)) = ⌈q⌉ := Int.toNat_of_nonneg hceil
    refine ⟨?_, ?_⟩
    · rw [hcalc]
      refine le_min ?_ le_rfl
      have hq' : q ≤ ((⌈q⌉.toNat : ℕ) : ℚ) := by
        have h0 : q ≤ ((⌈q⌉ : ℤ) : ℚ) := Int.le_ceil q
        rw [← htn] at h0
        exact_mod_cast h0
      have hmul : s.maxVolume - (s.startVolume + (c : ℚ) * s.volumePerMessage) ≤
          ((⌈q⌉.toNat : ℕ) : ℚ) * s.volumePerMessage := by
        have := (div_le_iff₀ h2).mp hq'
        linarith [this]
      push_cast
      have hexp : ((c : ℚ) + (⌈q⌉.toNat : ℚ)) * s.volumePerMessage =
          (c : ℚ) * s.volumePerMessage + (⌈q⌉.toNat : ℚ) * s.volumePerMessage := by ring
      linarith [hexp, hmul]
    · intro j hj
      rw [hcalc]
      have hj' : ((j : ℤ)) < ⌈q⌉ := by
        rw [← htn]; exact_mod_cast hj
      have hjq : ((j : ℕ) : ℚ) < q := by
        have := Int.lt_ceil.mp hj'
        exact_mod_cast this
      have hmul : ((j : ℕ) : ℚ) * s.volumePerMessage <
          s.maxVolume - (s.startVolume + (c : ℚ) * s.volumePerMessage) := by
        have := (lt_div_iff₀ h2).mp hjq
        linarith [this]
      refine lt_of_le_of_lt (min_le_left _ _) ?_
      push_cast
      have hexp : ((c : ℚ) + (j : ℚ)) * s.volumePerMessage =
          (c : ℚ) * s.volumePerMessage + (j : ℚ) * s.volumePerMessage := by ring
      linarith [hexp, hmul]

/-- C7 counterexample. src/unnamed/part_000: with startVolume lowered to 0
via PUT (minVolume still 0.10), the endpoint reports messagesUntilMax = 40
for a fresh user, yet 40 further events leave the volume at
0.80 < maxVolume (45 are needed). src/server.js: even at the default
settings, where exactly 40 further events are needed (39 do not suffice),
the endpoint's messagesUntilMax is NaN (none), because the handler divides
by the settings field volumePerMessage, which does not exist in that
variant. -/
theorem c7_counterexample :
    (getUserVolume ⟨[], lowStartSettings⟩ "bob").1.messagesUntilMax = 40 ∧
    calculateVolume lowStartSettings (0 + 40) < lowStartSettings.maxVolume ∧
    calculateVolume lowStartSettings (0 + 45) = lowStartSettings.maxVolume ∧
    (Srv.getUserVolume ⟨[], Srv.VOLUME_CONFIG⟩ "bob").1.messagesUntilMax = none ∧
    Srv.calculateVolume Srv.VOLUME_CONFIG (0 + 40) = Srv.VOLUME_CONFIG.maxVolume ∧
    Srv.calculateVolume Srv.VOLUME_CONFIG (0 + 39) < Srv.VOLUME_CONFIG.maxVolume := by
  refine ⟨?_, ?_, ?_, rfl, ?_, ?_⟩ <;>
    norm_num [getUserVolume, lowStartSettings, updateSettings, VOLUME_CONFIG, clamp01,
      messagesUntilMax, calculateVolume, normalizeUser, lookupUser, zeroRecord,
      Srv.calculateVolume, Srv.VOLUME_CONFIG]

/-- C7 amended: in the src/unnamed/part_000 variant, whenever the settings
satisfy minVolume ≤ startVolume (the spec's own settings invariant, true of
the defaults) and the increment is positive, the messagesUntilMax value
returned alongside the volume equals the least number of further events
needed for the volume to reach maxVolume (0 once already at max), while
lowering startVolume below minVolume makes it undercount; in the
src/server.js variant the handler divides by the nonexistent settings
field volumePerMessage, so the returned messagesUntilMax is NaN (none) for
every state and identifier and never the needed event count. -/
theorem c7_remaining_least :
    (∀ (st : StreamData) (raw : String),
      st.settings.minVolume ≤ st.settings.startVolume →
      0 < st.settings.volumePerMessage →
      st.settings.maxVolume ≤ calculateVolume st.settings
        ((getUserVolume st raw).1.messageCount +
          ((getUserVolume st raw).1.messagesUntilMax).toNat) ∧
      ∀ j < ((getUserVolume st raw).1.messagesUntilMax).toNat,
        calculateVolume st.settings ((getUserVolume st raw).1.messageCount + j) <
          st.settings.maxVolume) ∧
    (∀ (st : Srv.StreamData) (raw : String),
      (Srv.getUserVolume st raw).1.messagesUntilMax = none) :=
  ⟨fun st raw h1 h2 =>
    messagesUntilMax_least st.settings
      ((lookupUser st.users (normalizeUser raw)).getD zeroRecord).messageCount h1 h2,
   fun _ _ => rfl⟩

/-- Witness for C7 amended: the default settings and a fresh user in each
variant — part_000 reaches maxVolume in exactly the reported count, while
server.js reports NaN. -/
theorem c7_remaining_least_witness :
    (VOLUME_CONFIG.maxVolume ≤ calculateVolume VOLUME_CONFIG
      ((getUserVolume ⟨[], VOLUME_CONFIG⟩ "bob").1.messageCount +
        ((getUserVolume ⟨[], VOLUME_CONFIG⟩ "bob").1.messagesUntilMax).toNat) ∧
    ∀ j < ((getUserVolume ⟨[], VOLUME_CONFIG⟩ "bob").1.messagesUntilMax).toNat,
      calculateVolume VOLUME_CONFIG
        ((getUserVolume ⟨[], VOLUME_CONFIG⟩ "bob").1.messageCount + j) <
        VOLUME_CONFIG.maxVolume) ∧
    (Srv.getUserVolume ⟨[], Srv.VOLUME_CONFIG⟩ "bob").1.messagesUntilMax = none :=
  ⟨c7_remaining_least.1 ⟨[], VOLUME_CONFIG⟩ "bob"
      (by norm_num [VOLUME_CONFIG]) (by norm_num [VOLUME_CONFIG]),
   c7_remaining_least.2 ⟨[], Srv.VOLUME_CONFIG⟩ "bob"⟩

/-! ### Claim C9 -/

/-- Counters after a single record write. -/
theorem counts_step_set (st : StreamData) (key : String) (v : UserRecord) (u : String) :
    counts { st with users := setUser st.users key v } u =
      if key = u then (v.messageCount, v.ttsCount) else counts st u := by
  unfold counts
  simp only [lookupUser_setUser]
  split_ifs <;> rfl

/-- Reading with a zero default is unaffected by inserting an explicit zero
record for an absent key. -/
theorem lookupUser_setZero_getD (r : Registry) (key k : String)
    (h : lookupUser r key = none) :
    (lookupUser (setUser r key zeroRecord) k).getD zeroRecord =
      (lookupUser r k).getD zeroRecord := by
  rw [lookupUser_setUser]
  split_ifs with hk
  · subst hk; rw [h]; rfl
  · rfl

/-- Inserting a zero record for an absent key does not change any counters. -/
theorem counts_insertZero (st : StreamData) (key : String)
    (h : lookupUser st.users key = none) (u : String) :
    counts (insertZero key st) u = counts st u := by
  unfold insertZero counts
  simp only [lookupUser_setUser]
  split_ifs with hk
  · subst hk; rw [h]; rfl
  · rfl

/-- Writing a record over a registry that carries an extra zero record for
an absent key yields the same counters as writing it directly. -/
theorem counts_set_set_zero (st : StreamData) (key key2 : String) (v : UserRecord)
    (h : lookupUser st.users key = none) (u : String) :
    counts { st with users := setUser (setUser st.users key zeroRecord) key2 v } u =
      counts { st with users := setUser st.users key2 v } u := by
  unfold counts
  simp only [lookupUser_setUser]
  split_ifs with h1 h2
  · rfl
  · subst h2; rw [h]; rfl
  · rfl

/-- Inserting a zero record for an absent key changes no counter under any
subsequent operation. -/
theorem counts_step_insertZero (st : StreamData) (key : String)
    (h : lookupUser st.users key = none) (op : Op) (u : String) :
    counts (stepOp op (insertZero key st)) u = counts (stepOp op st) u := by
  cases op with
  | health => exact counts_insertZero st key h u
  | userVolume r => exact counts_insertZero st key h u
  | leaderboard => exact counts_insertZero st key h u
  | readSettings => exact counts_insertZero st key h u
  | stats => exact counts_insertZero st key h u
  | writeSettings p => exact counts_insertZero st key h u
  | reset => rfl
  | message r =>
      simp only [stepOp, postMessage, insertZero]
      rw [lookupUser_setZero_getD st.users key (normalizeUser r) h]
      exact counts_set_set_zero st key (normalizeUser r) _ h u
  | tts r =>
      simp only [stepOp, getTTS, insertZero]
      rw [lookupUser_setZero_getD st.users key (normalizeUser r) h]
      exact counts_set_set_zero st key (normalizeUser r) _ h u
  | ttsJson r =>
      simp only [stepOp, getTTSJson, insertZero]
      rw [lookupUser_setZero_getD st.users key (normalizeUser r) h]
      exact counts_set_set_zero st key (normalizeUser r) _ h u

/-- C9: over every operation except the full-registry reset the per-user
counters never decrease (they are naturals in this model, as in the code,
which only initializes them at 0 and adds 1: never negative); and for an
absent key, inserting an explicit zero-valued record changes no counter
under any subsequent operation and no per-user response. -/
theorem c9_counter_invariants :
    (∀ op : Op, op ≠ Op.reset → ∀ (st : StreamData) (u : String),
      (counts st u).1 ≤ (counts (stepOp op st) u).1 ∧
      (counts st u).2 ≤ (counts (stepOp op st) u).2) ∧
    (∀ (st : StreamData) (key : String), lookupUser st.users key = none →
      (∀ (op : Op) (u : String),
        counts (stepOp op (insertZero key st)) u = counts (stepOp op st) u) ∧
      (∀ raw : String,
        (getUserVolume (insertZero key st) raw).1 = (getUserVolume st raw).1 ∧
        (postMessage (insertZero key st) raw).1 = (postMessage st raw).1 ∧
        (getTTS (insertZero key st) raw).1 = (getTTS st raw).1 ∧
        (getTTSJson (insertZero key st) raw).1 = (getTTSJson st raw).1)) := by
  constructor
  · intro op hop st u
    cases op with
    | health => exact ⟨le_rfl, le_rfl⟩
    | userVolume r => exact ⟨le_rfl, le_rfl⟩
    | leaderboard => exact ⟨le_rfl, le_rfl⟩
    | readSettings => exact ⟨le_rfl, le_rfl⟩
    | stats => exact ⟨le_rfl, le_rfl⟩
    | writeSettings p => exact ⟨le_rfl, le_rfl⟩
    | reset => exact absurd rfl hop
    | message r =>
        simp only [stepOp, postMessage]
        rw [counts_step_set]
        by_cases hk : normalizeUser r = u
        · subst hk
          rw [if_pos rfl]
          unfold counts
          cases hlu : lookupUser st.users (normalizeUser r) <;>
            simp [hlu, zeroRecord]
        · rw [if_neg hk]; exact ⟨le_rfl, le_rfl⟩
    | tts r =>
        simp only [stepOp, getTTS]
        rw [counts_step_set]
        by_cases hk : normalizeUser r = u
        · subst hk
          rw [if_pos rfl]
          unfold counts
          cases hlu : lookupUser st.users (normalizeUser r) <;>
            simp [hlu, zeroRecord]
        · rw [if_neg hk]; exact ⟨le_rfl, le_rfl⟩
    | ttsJson r =>
        simp only [stepOp, getTTSJson]
        rw [counts_step_set]
        by_cases hk : normalizeUser r = u
        · subst hk
          rw [if_pos rfl]
          unfold counts
          cases hlu : lookupUser st.users (normalizeUser r) <;>
            simp [hlu, zeroRecord]
        · rw [if_neg hk]; exact ⟨le_rfl, le_rfl⟩
  · intro st key h
    refine ⟨counts_step_insertZero st key h, ?_⟩
    intro raw
    have hgd := lookupUser_setZero_getD st.users key (normalizeUser raw) h
    refine ⟨?_, ?_, ?_, ?_⟩ <;>
      simp only [getUserVolume, postMessage, getTTS, getTTSJson, insertZero, hgd]

/-- Witness for C9: a message post on the empty state grows the counters of
bob, and inserting a zero record for absent bob does not change the counters
the tts operation produces. -/
theorem c9_counter_invariants_witness :
    ((counts ⟨[], VOLUME_CONFIG⟩ "bob").1 ≤
        (counts (stepOp (Op.message "bob") ⟨[], VOLUME_CONFIG⟩) "bob").1 ∧
      (counts ⟨[], VOLUME_CONFIG⟩ "bob").2 ≤
        (counts (stepOp (Op.message "bob") ⟨[], VOLUME_CONFIG⟩) "bob").2) ∧
    counts (stepOp (Op.tts "ann") (insertZero "bob" ⟨[], VOLUME_CONFIG⟩)) "bob" =
      counts (stepOp (Op.tts "ann") ⟨[], VOLUME_CONFIG⟩) "bob" :=
  ⟨c9_counter_invariants.1 (Op.message "bob") (by decide) ⟨[], VOLUME_CONFIG⟩ "bob",
   (c9_counter_invariants.2 ⟨[], VOLUME_CONFIG⟩ "bob" rfl).1 (Op.tts "ann") "bob"⟩

/-! ### Claim C10 -/

/-- The first counter component is the messageCount read with a zero
default. -/
theorem counts_fst (st : StreamData) (k : String) :
    (counts st k).1 = ((lookupUser st.users k).getD zeroRecord).messageCount := by
  unfold counts
  cases lookupUser st.users k <;> rfl

/-- The second counter component is the ttsCount read with a zero default. -/
theorem counts_snd (st : StreamData) (k : String) :
    (counts st k).2 = ((lookupUser st.users k).getD zeroRecord).ttsCount := by
  unfold counts
  cases lookupUser st.users k <;> rfl

/-- Srv.setUser / Srv.lookupUser interaction (server.js registry). -/
theorem srvLookupUser_setUser (r : List (String × Srv.UserRecord)) (k u : String)
    (v : Srv.UserRecord) :
    Srv.lookupUser (Srv.setUser r k v) u = if k = u then some v else Srv.lookupUser r u := by
  induction r with
  | nil => simp [Srv.setUser, Srv.lookupUser]
  | cons hd tl ih =>
      obtain ⟨k0, v0⟩ := hd
      by_cases h : k0 = k
      · subst h
        simp only [Srv.setUser, if_pos rfl, Srv.lookupUser]
        split_ifs <;> simp_all [Srv.lookupUser]
      · simp only [Srv.setUser, if_neg h, Srv.lookupUser]
        split_ifs <;> simp_all [Srv.lookupUser]

/-- Counters after a single record write in the server.js registry. -/
theorem srvCounts_step_set (st : Srv.StreamData) (key : String) (v : Srv.UserRecord)
    (u : String) :
    Srv.counts { st with users := Srv.setUser st.users key v } u =
      if key = u then (v.messageCount, v.ttsCount) else Srv.counts st u := by
  unfold Srv.counts
  simp only [srvLookupUser_setUser]
  split_ifs <;> rfl

/-- messageCount with a zero default, server.js registry. -/
theorem srvCounts_fst (st : Srv.StreamData) (k : String) :
    (Srv.counts st k).1 = ((Srv.lookupUser st.users k).getD Srv.zeroRecord).messageCount := by
  unfold Srv.counts
  cases Srv.lookupUser st.users k <;> rfl

/-- ttsCount with a zero default, server.js registry. -/
theorem srvCounts_snd (st : Srv.StreamData) (k : String) :
    (Srv.counts st k).2 = ((Srv.lookupUser st.users k).getD Srv.zeroRecord).ttsCount := by
  unfold Srv.counts
  cases Srv.lookupUser st.users k <;> rfl

/-- C10: the reported volume is a function of messageCount and settings
only. Every volume-reporting endpoint of src/unnamed/part_000 reports
calculateVolume(settings, messageCount); two states that agree on the
settings and on a user's messageCount (however their ttsCount differs)
report the same volume; the TTS usage operation increments the user's
ttsCount while preserving every messageCount and the settings, so it never
changes any reported volume; and in the src/server.js variant — whose
increment setting is named volumePerTTS — POST tts and GET tts likewise
report the volume of the record's messageCount and only increment
ttsCount. -/
theorem c10_volume_ignores_tts :
    (∀ (st : StreamData) (raw : String),
      (getUserVolume st raw).1.volume
          = calculateVolume st.settings (counts st (normalizeUser raw)).1 ∧
      (getTTS st raw).1.volume
          = calculateVolume st.settings (counts st (normalizeUser raw)).1 ∧
      (getTTSJson st raw).1.volume
          = calculateVolume st.settings (counts st (normalizeUser raw)).1 ∧
      (postMessage st raw).1.volume
          = calculateVolume st.settings ((counts st (normalizeUser raw)).1 + 1)) ∧
    (∀ (st st' : StreamData) (raw : String), st.settings = st'.settings →
      (counts st (normalizeUser raw)).1 = (counts st' (normalizeUser raw)).1 →
      (getUserVolume st raw).1.volume = (getUserVolume st' raw).1.volume ∧
      (getTTS st raw).1.volume = (getTTS st' raw).1.volume ∧
      (getTTSJson st raw).1.volume = (getTTSJson st' raw).1.volume) ∧
    (∀ (st : StreamData) (raw u : String),
      ((getTTS st raw).2).settings = st.settings ∧
      (counts (getTTS st raw).2 u).1 = (counts st u).1 ∧
      (counts (getTTS st raw).2 (normalizeUser raw)).2
          = (counts st (normalizeUser raw)).2 + 1 ∧
      ∀ raw2 : String, (getUserVolume (getTTS st raw).2 raw2).1.volume
          = (getUserVolume st raw2).1.volume) ∧
    (∀ (st : Srv.StreamData) (raw u : String) (msg : Option String) (now : String),
      (Srv.postTTS st raw msg now).1.volume
          = Srv.calculateVolume st.settings (Srv.counts st raw.toLower).1 ∧
      ((Srv.postTTS st raw msg now).2).settings = st.settings ∧
      (Srv.counts (Srv.postTTS st raw msg now).2 u).1 = (Srv.counts st u).1 ∧
      (Srv.counts (Srv.postTTS st raw msg now).2 raw.toLower).2
          = (Srv.counts st raw.toLower).2 + 1 ∧
      (Srv.getTTS st raw).1.volume
          = Srv.calculateVolume st.settings (Srv.counts st raw.toLower).1) := by
  have hvol : ∀ (st : StreamData) (raw : String),
      (getUserVolume st raw).1.volume
        = calculateVolume st.settings (counts st (normalizeUser raw)).1 := by
    intro st raw
    simp only [getUserVolume, counts_fst]
  have hpres : ∀ (st : StreamData) (raw u : String),
      (counts (getTTS st raw).2 u).1 = (counts st u).1 := by
    intro st raw u
    simp only [getTTS]
    rw [counts_step_set]
    by_cases hk : normalizeUser raw = u
    · subst hk; rw [if_pos rfl, counts_fst]
    · rw [if_neg hk]
  refine ⟨?_, ?_, ?_, ?_⟩
  · intro st raw
    exact ⟨hvol st raw, by simp only [getTTS, counts_fst],
      by simp only [getTTSJson, counts_fst], by simp only [postMessage, counts_fst]⟩
  · intro st st' raw hs hc
    refine ⟨?_, ?_, ?_⟩ <;>
      simp only [getUserVolume, getTTS, getTTSJson] <;>
        rw [← counts_fst, ← counts_fst, hs, hc]
  · intro st raw u
    refine ⟨rfl, hpres st raw u, ?_, ?_⟩
    · simp only [getTTS]
      rw [counts_step_set, if_pos rfl, counts_snd]
    · intro raw2
      rw [hvol, hvol, hpres]
      rfl
  · intro st raw u msg now
    refine ⟨?_, rfl, ?_, ?_, ?_⟩
    · simp only [Srv.postTTS, srvCounts_fst]
    · simp only [Srv.postTTS]
      rw [srvCounts_step_set]
      by_cases hk : raw.toLower = u
      · subst hk; rw [if_pos rfl, srvCounts_fst]
      · rw [if_neg hk]
    · simp only [Srv.postTTS]
      rw [srvCounts_step_set, if_pos rfl, srvCounts_snd]
    · simp only [Srv.getTTS, srvCounts_fst]

/-- Witness for C10, second part: the empty state and the state with ten
recorded TTS usages for bob agree on settings and on messageCount 0, so
they report the same volume for bob. -/
theorem c10_volume_ignores_tts_witness :
    (getUserVolume ⟨[("bob", ⟨0, 10⟩)], VOLUME_CONFIG⟩ "bob").1.volume
        = (getUserVolume ⟨[], VOLUME_CONFIG⟩ "bob").1.volume ∧
    (getTTS ⟨[("bob", ⟨0, 10⟩)], VOLUME_CONFIG⟩ "bob").1.volume
        = (getTTS ⟨[], VOLUME_CONFIG⟩ "bob").1.volume ∧
    (getTTSJson ⟨[("bob", ⟨0, 10⟩)], VOLUME_CONFIG⟩ "bob").1.volume
        = (getTTSJson ⟨[], VOLUME_CONFIG⟩ "bob").1.volume :=
  c10_volume_ignores_tts.2.1 ⟨[("bob", ⟨0, 10⟩)], VOLUME_CONFIG⟩ ⟨[], VOLUME_CONFIG⟩
    "bob" rfl (by decide)
